import Mathlib

/-!
Verification of the hedging calculator's core sizing and signal logic
(`src/hedging_calculator.py`), shallowly embedded in Lean.

The source is a single Streamlit script.  Its core computation
(lines 204-213) is plain arithmetic on the inputs collected from the
`number_input` widgets; prices are modelled as rationals, the index and
the lot count as integers (in the script `holding_lots` and
`current_index` are Python ints, `price_631` a float).  The division
that Python would abort with `ZeroDivisionError` is embedded as an
`Except` value carrying a typed error, following the spec's error
taxonomy.  The trend classifier (lines 227-235) and the action decision
table (lines 243-257) are embedded as total functions on a closed
enumeration of the two select-box states.
-/

namespace HedgingCalculator

/-- Source constant `LEVERAGE_RATIO = 2.0` (line 15): leverage multiple of
the 00631L ETF, applied to the notional value. -/
def leverage_mult : ℚ := 2

/-- Source constant `MTX_POINT_VALUE = 50` (line 17): value of one index
point of the MTX contract. -/
def MTX_POINT_VALUE : ℚ := 50

/-- Line 205: `nominal_value_1x = holding_lots * 1000 * price_631`
(1000 shares per lot). -/
def nominal_value_1x (holding_lots : ℤ) (price_631 : ℚ) : ℚ :=
  (holding_lots : ℚ) * 1000 * price_631

/-- Line 207: `effective_exposure = nominal_value_1x * LEVERAGE_RATIO`. -/
def effective_exposure (holding_lots : ℤ) (price_631 : ℚ) : ℚ :=
  nominal_value_1x holding_lots price_631 * leverage_mult

/-- Line 209: `mtx_contract_value = current_index * MTX_POINT_VALUE`. -/
def mtx_contract_value (current_index : ℤ) : ℚ :=
  (current_index : ℚ) * MTX_POINT_VALUE

/-- Typed errors of the engine, per the spec's error taxonomy.  In the
Python script `divisionInvalid` surfaces as the `ZeroDivisionError`
raised by line 211, and `invalidInput` as the value-below-minimum
rejection of the `number_input` widgets (lines 176-199). -/
inductive EngineError
  | invalidInput
  | divisionInvalid
deriving DecidableEq

/-- Line 211: `required_lots_float = effective_exposure / mtx_contract_value`.
Python raises `ZeroDivisionError` when the divisor is zero; the fallible
division is embedded as an `Except` value. -/
def required_lots_float (holding_lots : ℤ) (price_631 : ℚ) (current_index : ℤ) :
    Except EngineError ℚ :=
  if mtx_contract_value current_index = 0 then
    .error .divisionInvalid
  else
    .ok (effective_exposure holding_lots price_631 / mtx_contract_value current_index)

/-- Line 213: `required_lots_ceil = np.ceil(required_lots_float)`. -/
def required_lots_ceil (holding_lots : ℤ) (price_631 : ℚ) (current_index : ℤ) :
    Except EngineError ℤ :=
  Except.map Int.ceil (required_lots_float holding_lots price_631 current_index)

/-- The spec's SizingResult record: the five figures the sizing block
(lines 204-213) computes for one evaluation pass. -/
structure SizingResult where
  notionalValue1x : ℚ
  effectiveExposure : ℚ
  contractValue : ℚ
  requiredLotsExact : ℚ
  requiredLotsCeil : ℤ
deriving DecidableEq

/-- The spec's `computeSizing` engine as realised by the script: the
`number_input` widgets gate the inputs (lines 176-199: `holding_lots`
has `min_value=1`, `price_631` has `min_value=10.0`, `current_index`
has `min_value=5000`; Streamlit rejects a value below its minimum with
a typed error before the script body computes), then the sizing block
(lines 204-213) produces the figures. -/
def computeSizing (holding_lots : ℤ) (price_631 : ℚ) (current_index : ℤ) :
    Except EngineError SizingResult :=
  if holding_lots < 1 ∨ price_631 < 10 ∨ current_index < 5000 then
    .error .invalidInput
  else
    match required_lots_float holding_lots price_631 current_index with
    | .error e => .error e
    | .ok q =>
        .ok ⟨nominal_value_1x holding_lots price_631,
             effective_exposure holding_lots price_631,
             mtx_contract_value current_index,
             q, ⌈q⌉⟩

/-- The select-box on lines 159-163 offers exactly two position states;
embedded as a closed enumeration (unhedged = long without hedge,
hedged = long plus short MTX). -/
inductive HedgeState
  | unhedged
  | hedged
deriving DecidableEq

/-- The three branches of the classifier on lines 227-235: bullish,
bearish, and the final `else` branch whose label says the signal could
not be determined. -/
inductive MaSignal
  | bullishSignal
  | bearishSignal
  | undetermined
deriving DecidableEq

/-- Lines 227-235: `if current_index > ma: bullish elif current_index <= ma:
bearish else: undetermined`, recording which branch sets `ma_signal_auto`. -/
def ma_signal_auto (current_index ma_price_twii : ℤ) : MaSignal :=
  if current_index > ma_price_twii then .bullishSignal
  else if current_index ≤ ma_price_twii then .bearishSignal
  else .undetermined

/-- Lines 227-235: the `is_bullish` flag set alongside the signal label
(True in the first branch, False in the other two). -/
def is_bullish (current_index ma_price_twii : ℤ) : Bool :=
  if current_index > ma_price_twii then true
  else if current_index ≤ ma_price_twii then false
  else false

/-- The four actions the script can recommend (lines 243-257):
maintain the unhedged long, close the hedge short, newly short
(open the hedge), or keep holding the hedge. -/
inductive Action
  | maintain
  | closeShort
  | openShort
  | holdHedge
deriving DecidableEq

/-- Lines 243-257: the `action_required` variable as a function of the
bullish flag and the position state. -/
def action_required (is_b : Bool) (status : HedgeState) : Action :=
  if is_b then
    match status with
    | .unhedged => .maintain
    | .hedged => .closeShort
  else
    match status with
    | .unhedged => .openShort
    | .hedged => .holdHedge

/-- Lines 243-257: the `suggested_lots` variable as a function of the
bullish flag, the position state and the computed `required_lots_ceil`. -/
def suggested_lots (is_b : Bool) (status : HedgeState) (rlc : ℤ) : ℤ :=
  if is_b then
    match status with
    | .unhedged => 0
    | .hedged => rlc
  else
    match status with
    | .unhedged => rlc
    | .hedged => rlc

/-- When the index is positive the contract value is nonzero, so the
division on line 211 succeeds with the exact quotient. -/
theorem required_lots_float_of_pos (h : ℤ) (u : ℚ) (i : ℤ) (hi : 0 < i) :
    required_lots_float h u i =
      .ok (effective_exposure h u / mtx_contract_value i) := by
  have hne : mtx_contract_value i ≠ 0 := by
    unfold mtx_contract_value MTX_POINT_VALUE
    have : (0 : ℚ) < (i : ℚ) := by exact_mod_cast hi
    positivity
  unfold required_lots_float
  simp [hne]

/-- C1: for every holdingLots ≥ 1, unitPrice > 0, indexPrice > 0 the sizing
block returns notionalValue1x = holdingLots × 1000 × unitPrice,
effectiveExposure = notionalValue1x × 2, contractValue = indexPrice × 50 and
requiredLotsExact = effectiveExposure / contractValue; at holdingLots = 7,
unitPrice = 50, indexPrice = 19500 it yields 350000, 700000, 975000,
requiredLotsExact = 28/39 ≈ 0.7179 and requiredLotsCeil = 1. -/
theorem C1_sizing_computation (h : ℤ) (u : ℚ) (i : ℤ)
    (hh : 1 ≤ h) (hu : 0 < u) (hi : 0 < i) :
    nominal_value_1x h u = (h : ℚ) * 1000 * u ∧
    effective_exposure h u = nominal_value_1x h u * 2 ∧
    mtx_contract_value i = (i : ℚ) * 50 ∧
    required_lots_float h u i =
      .ok (effective_exposure h u / mtx_contract_value i) ∧
    nominal_value_1x 7 50 = 350000 ∧
    effective_exposure 7 50 = 700000 ∧
    mtx_contract_value 19500 = 975000 ∧
    required_lots_float 7 50 19500 = .ok (28 / 39) ∧
    (7179 / 10000 : ℚ) < 28 / 39 ∧ (28 / 39 : ℚ) < 718 / 1000 ∧
    required_lots_ceil 7 50 19500 = .ok 1 := by
  have hfl : required_lots_float 7 50 19500 = .ok (28 / 39) := by
    rw [required_lots_float_of_pos 7 50 19500 (by norm_num)]
    norm_num [effective_exposure, nominal_value_1x, mtx_contract_value,
      leverage_mult, MTX_POINT_VALUE]
  refine ⟨rfl, rfl, rfl, required_lots_float_of_pos h u i hi, ?_, ?_, ?_, hfl,
    by norm_num, by norm_num, ?_⟩
  · norm_num [nominal_value_1x]
  · norm_num [effective_exposure, nominal_value_1x, leverage_mult]
  · norm_num [mtx_contract_value, MTX_POINT_VALUE]
  · unfold required_lots_ceil
    rw [hfl]
    have hc : ⌈(28 / 39 : ℚ)⌉ = 1 := by
      rw [Int.ceil_eq_iff]
      norm_num
    simp [Except.map, hc]

/-- C1 witness: the theorem applied at holdingLots = 7, unitPrice = 50,
indexPrice = 19500. -/
theorem C1_witness :
    nominal_value_1x 7 50 = ((7 : ℤ) : ℚ) * 1000 * 50 ∧
    effective_exposure 7 50 = nominal_value_1x 7 50 * 2 ∧
    mtx_contract_value 19500 = ((19500 : ℤ) : ℚ) * 50 ∧
    required_lots_float 7 50 19500 =
      .ok (effective_exposure 7 50 / mtx_contract_value 19500) ∧
    nominal_value_1x 7 50 = 350000 ∧
    effective_exposure 7 50 = 700000 ∧
    mtx_contract_value 19500 = 975000 ∧
    required_lots_float 7 50 19500 = .ok (28 / 39) ∧
    (7179 / 10000 : ℚ) < 28 / 39 ∧ (28 / 39 : ℚ) < 718 / 1000 ∧
    required_lots_ceil 7 50 19500 = .ok 1 :=
  C1_sizing_computation 7 50 19500 (by norm_num) (by norm_num) (by norm_num)

/-- C2: the trend is classified bullish iff indexPrice > movingAveragePrice
and bearish iff indexPrice ≤ movingAveragePrice; equality classifies as
bearish, not bullish. -/
theorem C2_trend_classification (i ma : ℤ) :
    (ma_signal_auto i ma = .bullishSignal ↔ ma < i) ∧
    (ma_signal_auto i ma = .bearishSignal ↔ i ≤ ma) ∧
    (is_bullish i ma = true ↔ ma < i) ∧
    (i = ma → ma_signal_auto i ma = .bearishSignal ∧ is_bullish i ma = false) := by
  unfold ma_signal_auto is_bullish
  rcases lt_or_le ma i with hgt | hle
  · have h2 : ¬ i ≤ ma := not_le.mpr hgt
    rw [if_pos hgt, if_pos hgt]
    refine ⟨by simp [hgt], by simp [h2], by simp [hgt], ?_⟩
    intro he
    exact absurd hgt (by omega)
  · have h2 : ¬ i > ma := not_lt.mpr hle
    rw [if_neg h2, if_pos hle, if_neg h2, if_pos hle]
    exact ⟨by simp [h2], by simp [hle], by simp [h2], fun _ => ⟨rfl, rfl⟩⟩

/-- C2 witness: at indexPrice = movingAveragePrice = 19500 the classifier
returns bearish and the bullish flag is false. -/
theorem C2_witness :
    ma_signal_auto 19500 19500 = .bearishSignal ∧
    is_bullish 19500 19500 = false :=
  (C2_trend_classification 19500 19500).2.2.2 rfl

/-- C3: the resolver implements exactly the decision table, and
suggestedLots equals requiredLotsCeil in every case except
bullish/unhedged, where it is forced to 0. -/
theorem C3_decision_table (rlc : ℤ) :
    action_required true .unhedged = .maintain ∧
    suggested_lots true .unhedged rlc = 0 ∧
    action_required true .hedged = .closeShort ∧
    suggested_lots true .hedged rlc = rlc ∧
    action_required false .unhedged = .openShort ∧
    suggested_lots false .unhedged rlc = rlc ∧
    action_required false .hedged = .holdHedge ∧
    suggested_lots false .hedged rlc = rlc ∧
    (∀ (b : Bool) (s : HedgeState), ¬(b = true ∧ s = .unhedged) →
      suggested_lots b s rlc = rlc) := by
  refine ⟨rfl, rfl, rfl, rfl, rfl, rfl, rfl, rfl, ?_⟩
  intro b s hbs
  cases b <;> cases s <;> simp_all [suggested_lots]

/-- C3 witness: the table applied at requiredLotsCeil = 3 in the
bearish/hedged case. -/
theorem C3_witness : suggested_lots false HedgeState.hedged 3 = 3 :=
  (C3_decision_table 3).2.2.2.2.2.2.2.2 false HedgeState.hedged (by simp)

/-- C4: for every holdingLots ≥ 1, unitPrice > 0, indexPrice > 0 the
rounded count is the ceiling of the exact count: it is at least the exact
count, exceeds it by less than 1, and is the least such integer. -/
theorem C4_ceiling_property (h : ℤ) (u : ℚ) (i : ℤ)
    (hh : 1 ≤ h) (hu : 0 < u) (hi : 0 < i) :
    ∃ q : ℚ, required_lots_float h u i = .ok q ∧
      required_lots_ceil h u i = .ok ⌈q⌉ ∧
      q ≤ (⌈q⌉ : ℚ) ∧ (⌈q⌉ : ℚ) - q < 1 ∧
      ∀ n : ℤ, q ≤ (n : ℚ) → ⌈q⌉ ≤ n := by
  refine ⟨effective_exposure h u / mtx_contract_value i,
    required_lots_float_of_pos h u i hi, ?_, Int.le_ceil _, ?_, ?_⟩
  · unfold required_lots_ceil
    rw [required_lots_float_of_pos h u i hi]
    rfl
  · have hlt := Int.ceil_lt_add_one (effective_exposure h u / mtx_contract_value i)
    linarith
  · intro n hn
    exact Int.ceil_le.mpr hn

/-- C4 witness: the ceiling property instantiated at holdingLots = 7,
unitPrice = 50, indexPrice = 19500. -/
theorem C4_witness :
    ∃ q : ℚ, required_lots_float 7 50 19500 = .ok q ∧
      required_lots_ceil 7 50 19500 = .ok ⌈q⌉ ∧
      q ≤ (⌈q⌉ : ℚ) ∧ (⌈q⌉ : ℚ) - q < 1 ∧
      ∀ n : ℤ, q ≤ (n : ℚ) → ⌈q⌉ ≤ n :=
  C4_ceiling_property 7 50 19500 (by norm_num) (by norm_num) (by norm_num)

/-- A positive index level makes the contract value positive. -/
theorem mtx_contract_value_pos (i : ℤ) (hi : 0 < i) : 0 < mtx_contract_value i := by
  unfold mtx_contract_value MTX_POINT_VALUE
  have hq : (0 : ℚ) < (i : ℚ) := by exact_mod_cast hi
  positivity

/-- When the index is positive, line 213 rounds the successful quotient up. -/
theorem required_lots_ceil_of_pos (h : ℤ) (u : ℚ) (i : ℤ) (hi : 0 < i) :
    required_lots_ceil h u i =
      .ok ⌈effective_exposure h u / mtx_contract_value i⌉ := by
  unfold required_lots_ceil
  rw [required_lots_float_of_pos h u i hi]
  rfl

/-- The exposure grows with the lot count (price fixed and nonnegative). -/
theorem effective_exposure_mono_lots (h₁ h₂ : ℤ) (u : ℚ)
    (h12 : h₁ ≤ h₂) (hu : 0 ≤ u) :
    effective_exposure h₁ u ≤ effective_exposure h₂ u := by
  unfold effective_exposure nominal_value_1x leverage_mult
  have hc : (h₁ : ℚ) ≤ (h₂ : ℚ) := by exact_mod_cast h12
  nlinarith

/-- The exposure grows with the unit price (lot count fixed and nonnegative). -/
theorem effective_exposure_mono_price (h : ℤ) (u₁ u₂ : ℚ)
    (hle : u₁ ≤ u₂) (hh : 0 ≤ h) :
    effective_exposure h u₁ ≤ effective_exposure h u₂ := by
  unfold effective_exposure nominal_value_1x leverage_mult
  have hc : (0 : ℚ) ≤ (h : ℚ) := by exact_mod_cast hh
  nlinarith

/-- A real holding (at least one lot, positive price) has positive exposure. -/
theorem effective_exposure_pos (h : ℤ) (u : ℚ) (hh : 1 ≤ h) (hu : 0 < u) :
    0 < effective_exposure h u := by
  unfold effective_exposure nominal_value_1x leverage_mult
  have hc : (1 : ℚ) ≤ (h : ℚ) := by exact_mod_cast hh
  nlinarith

/-- C5: with all inputs in their valid ranges, requiredLotsCeil is
non-decreasing in holdingLots, non-decreasing in unitPrice, and
non-increasing in indexPrice, all else fixed. -/
theorem C5_monotonicity :
    (∀ (h₁ h₂ : ℤ) (u : ℚ) (i : ℤ), 1 ≤ h₁ → h₁ ≤ h₂ → 0 < u → 0 < i →
      ∃ c₁ c₂ : ℤ, required_lots_ceil h₁ u i = .ok c₁ ∧
        required_lots_ceil h₂ u i = .ok c₂ ∧ c₁ ≤ c₂) ∧
    (∀ (h : ℤ) (u₁ u₂ : ℚ) (i : ℤ), 1 ≤ h → 0 < u₁ → u₁ ≤ u₂ → 0 < i →
      ∃ c₁ c₂ : ℤ, required_lots_ceil h u₁ i = .ok c₁ ∧
        required_lots_ceil h u₂ i = .ok c₂ ∧ c₁ ≤ c₂) ∧
    (∀ (h : ℤ) (u : ℚ) (i₁ i₂ : ℤ), 1 ≤ h → 0 < u → 0 < i₁ → i₁ ≤ i₂ →
      ∃ c₁ c₂ : ℤ, required_lots_ceil h u i₁ = .ok c₁ ∧
        required_lots_ceil h u i₂ = .ok c₂ ∧ c₂ ≤ c₁) := by
  refine ⟨?_, ?_, ?_⟩
  · intro h₁ h₂ u i hh1 h12 hu hi
    have hM := mtx_contract_value_pos i hi
    refine ⟨_, _, required_lots_ceil_of_pos h₁ u i hi,
      required_lots_ceil_of_pos h₂ u i hi, ?_⟩
    exact Int.ceil_le_ceil
      ((div_le_div_iff_of_pos_right hM).mpr (effective_exposure_mono_lots h₁ h₂ u h12 hu.le))
  · intro h u₁ u₂ i hh hu1 hle hi
    have hM := mtx_contract_value_pos i hi
    refine ⟨_, _, required_lots_ceil_of_pos h u₁ i hi,
      required_lots_ceil_of_pos h u₂ i hi, ?_⟩
    exact Int.ceil_le_ceil
      ((div_le_div_iff_of_pos_right hM).mpr
        (effective_exposure_mono_price h u₁ u₂ hle (by omega)))
  · intro h u i₁ i₂ hh hu hi1 h12
    have hi2 : 0 < i₂ := lt_of_lt_of_le hi1 h12
    have hM1 := mtx_contract_value_pos i₁ hi1
    have hMle : mtx_contract_value i₁ ≤ mtx_contract_value i₂ := by
      unfold mtx_contract_value MTX_POINT_VALUE
      have hc : (i₁ : ℚ) ≤ (i₂ : ℚ) := by exact_mod_cast h12
      nlinarith
    refine ⟨_, _, required_lots_ceil_of_pos h u i₁ hi1,
      required_lots_ceil_of_pos h u i₂ hi2, ?_⟩
    exact Int.ceil_le_ceil
      (div_le_div_of_nonneg_left (effective_exposure_pos h u hh hu).le hM1 hMle)

/-- C5 witness: the three monotonicity parts applied at concrete inputs
around holdingLots = 7, unitPrice = 50, indexPrice = 19500. -/
theorem C5_witness :
    (∃ c₁ c₂ : ℤ, required_lots_ceil 7 50 19500 = .ok c₁ ∧
      required_lots_ceil 8 50 19500 = .ok c₂ ∧ c₁ ≤ c₂) ∧
    (∃ c₁ c₂ : ℤ, required_lots_ceil 7 50 19500 = .ok c₁ ∧
      required_lots_ceil 7 60 19500 = .ok c₂ ∧ c₁ ≤ c₂) ∧
    (∃ c₁ c₂ : ℤ, required_lots_ceil 7 50 19000 = .ok c₁ ∧
      required_lots_ceil 7 50 19500 = .ok c₂ ∧ c₂ ≤ c₁) :=
  ⟨C5_monotonicity.1 7 8 50 19500 (by norm_num) (by norm_num) (by norm_num)
      (by norm_num),
   C5_monotonicity.2.1 7 50 60 19500 (by norm_num) (by norm_num) (by norm_num)
      (by norm_num),
   C5_monotonicity.2.2 7 50 19000 19500 (by norm_num) (by norm_num)
      (by norm_num) (by norm_num)⟩

/-- C6: a zero contract value (index price 0) makes the required-lot
computation fail with the divisionInvalid error; no quotient is ever
produced, so nothing is coerced to 0 or to infinity. -/
theorem C6_division_invalid (h : ℤ) (u : ℚ) (i : ℤ)
    (hc : mtx_contract_value i = 0) :
    i = 0 ∧
    required_lots_float h u i = .error .divisionInvalid ∧
    required_lots_ceil h u i = .error .divisionInvalid ∧
    ∀ q : ℚ, required_lots_float h u i ≠ .ok q := by
  have hi : i = 0 := by
    unfold mtx_contract_value MTX_POINT_VALUE at hc
    rcases mul_eq_zero.mp hc with h0 | h0
    · exact_mod_cast h0
    · norm_num at h0
  refine ⟨hi, ?_, ?_, ?_⟩
  · unfold required_lots_float
    rw [if_pos hc]
  · unfold required_lots_ceil required_lots_float
    rw [if_pos hc]
    rfl
  · intro q hq
    unfold required_lots_float at hq
    rw [if_pos hc] at hq
    exact Except.noConfusion hq

/-- C6 witness: the division failure at holdingLots = 7, unitPrice = 50,
indexPrice = 0. -/
theorem C6_witness :
    (0 : ℤ) = 0 ∧
    required_lots_float 7 50 0 = .error .divisionInvalid ∧
    required_lots_ceil 7 50 0 = .error .divisionInvalid ∧
    ∀ q : ℚ, required_lots_float 7 50 0 ≠ .ok q :=
  C6_division_invalid 7 50 0 (by norm_num [mtx_contract_value, MTX_POINT_VALUE])

/-- C7: a non-positive holdingLots, unitPrice or indexPrice is rejected
with the invalidInput error before any sizing figure is produced. -/
theorem C7_invalid_input (h : ℤ) (u : ℚ) (i : ℤ)
    (hbad : h ≤ 0 ∨ u ≤ 0 ∨ i ≤ 0) :
    computeSizing h u i = .error .invalidInput ∧
    ∀ r : SizingResult, computeSizing h u i ≠ .ok r := by
  have hcond : h < 1 ∨ u < 10 ∨ i < 5000 := by
    rcases hbad with hb | hb | hb
    · left; omega
    · right; left; linarith
    · right; right; omega
  have herr : computeSizing h u i = .error .invalidInput := by
    unfold computeSizing
    rw [if_pos hcond]
  exact ⟨herr, fun r hr => Except.noConfusion (herr ▸ hr)⟩

/-- C7 witness: the engine rejects holdingLots = 0 even with valid prices. -/
theorem C7_witness :
    computeSizing 0 50 19500 = .error .invalidInput ∧
    ∀ r : SizingResult, computeSizing 0 50 19500 ≠ .ok r :=
  C7_invalid_input 0 50 19500 (Or.inl le_rfl)

/-- C8: the sizing engine and the action resolver are deterministic:
identical input tuples produce identical sizing results, trend flags,
actions and suggested lot counts. -/
theorem C8_determinism (h₁ h₂ : ℤ) (u₁ u₂ : ℚ) (i₁ i₂ ma₁ ma₂ : ℤ)
    (s₁ s₂ : HedgeState) (r₁ r₂ : ℤ)
    (he : (h₁, u₁, i₁, ma₁, s₁, r₁) = (h₂, u₂, i₂, ma₂, s₂, r₂)) :
    computeSizing h₁ u₁ i₁ = computeSizing h₂ u₂ i₂ ∧
    is_bullish i₁ ma₁ = is_bullish i₂ ma₂ ∧
    action_required (is_bullish i₁ ma₁) s₁ =
      action_required (is_bullish i₂ ma₂) s₂ ∧
    suggested_lots (is_bullish i₁ ma₁) s₁ r₁ =
      suggested_lots (is_bullish i₂ ma₂) s₂ r₂ := by
  simp only [Prod.mk.injEq] at he
  obtain ⟨e1, e2, e3, e4, e5, e6⟩ := he
  subst e1; subst e2; subst e3; subst e4; subst e5; subst e6
  exact ⟨rfl, rfl, rfl, rfl⟩

/-- C8 witness: determinism at one concrete repeated input tuple. -/
theorem C8_witness :
    computeSizing 7 50 19500 = computeSizing 7 50 19500 ∧
    is_bullish 19500 19000 = is_bullish 19500 19000 ∧
    action_required (is_bullish 19500 19000) HedgeState.unhedged =
      action_required (is_bullish 19500 19000) HedgeState.unhedged ∧
    suggested_lots (is_bullish 19500 19000) HedgeState.unhedged 1 =
      suggested_lots (is_bullish 19500 19000) HedgeState.unhedged 1 :=
  C8_determinism 7 7 50 50 19500 19500 19000 19000
    HedgeState.unhedged HedgeState.unhedged 1 1 rfl

/-- C9: the classifier is total over its two declared outcomes: every pair
of integer levels lands in the bullish or the bearish branch, so the third
branch never fires. -/
theorem C9_trend_total (i ma : ℤ) :
    ma_signal_auto i ma = .bullishSignal ∨
      ma_signal_auto i ma = .bearishSignal := by
  unfold ma_signal_auto
  rcases lt_or_le ma i with hgt | hle
  · left
    rw [if_pos hgt]
  · right
    rw [if_neg (not_lt.mpr hle), if_pos hle]

/-- C10: with valid inputs the exact count is positive, the rounded count
is at least 1, and every non-maintain recommendation built from it
suggests at least one lot. -/
theorem C10_nonzero_suggestion (h : ℤ) (u : ℚ) (i : ℤ)
    (hh : 1 ≤ h) (hu : 0 < u) (hi : 0 < i) :
    ∃ (q : ℚ) (c : ℤ), required_lots_float h u i = .ok q ∧ 0 < q ∧
      required_lots_ceil h u i = .ok c ∧ 1 ≤ c ∧
      ∀ (b : Bool) (s : HedgeState),
        action_required b s ≠ .maintain → 1 ≤ suggested_lots b s c := by
  have hM := mtx_contract_value_pos i hi
  have hq : 0 < effective_exposure h u / mtx_contract_value i :=
    div_pos (effective_exposure_pos h u hh hu) hM
  have hc : 1 ≤ ⌈effective_exposure h u / mtx_contract_value i⌉ := by
    have := Int.ceil_pos.mpr hq
    linarith
  refine ⟨_, _, required_lots_float_of_pos h u i hi, hq,
    required_lots_ceil_of_pos h u i hi, hc, ?_⟩
  intro b s hb
  cases b <;> cases s <;> simp_all [action_required, suggested_lots]

/-- C10 witness: at holdingLots = 7, unitPrice = 50, indexPrice = 19500
the rounded count is at least 1 and non-maintain cases suggest it. -/
theorem C10_witness :
    ∃ (q : ℚ) (c : ℤ), required_lots_float 7 50 19500 = .ok q ∧ 0 < q ∧
      required_lots_ceil 7 50 19500 = .ok c ∧ 1 ≤ c ∧
      ∀ (b : Bool) (s : HedgeState),
        action_required b s ≠ .maintain → 1 ≤ suggested_lots b s c :=
  C10_nonzero_suggestion 7 50 19500 (by norm_num) (by norm_num) (by norm_num)

end HedgingCalculator
